import Mathlib

/-
Verification of the Veloren server tick engine against its specification.

The definitions below are a shallow embedding of the server code:
  - src/server/src/lib.rs   (Server: tick, handle_new_connections,
    handle_new_messages, generate_chunk, chunk_in_vd, sync_clients)
  - src/common/src/state.rs (BlockChange, TerrainChanges, State::tick,
    State::insert_chunk)

Machine integers are modelled as Nat/Int (u32 saturating subtraction becomes
Nat subtraction, i32 as Int); HashMap/HashSet are modelled as association
lists/lists kept duplicate-free by the operations themselves; floating point
positions are taken at integer coordinates, where the source's f32-to-integer
casts are exact.  Parts of the repository that the server code calls but that
are not present under src/ (the client session helpers in
src/server/src/client.rs, the message and terrain types in
common::msg/common::terrain) are modelled from the specification and marked
as such in their doc comments.
-/

namespace Veloren

/-- Lookup in an association list, the model of HashMap::get. -/
def assocLookup {κ ν : Type} [DecidableEq κ] (k : κ) : List (κ × ν) → Option ν
  | [] => none
  | (k', v) :: rest => if k' = k then some v else assocLookup k rest

/-- Insert into an association list replacing any existing binding, the model
of HashMap::insert. -/
def assocInsert {κ ν : Type} [DecidableEq κ] (k : κ) (v : ν) (m : List (κ × ν)) :
    List (κ × ν) :=
  (k, v) :: m.filter (fun e => decide (e.1 ≠ k))

/-- Number of bindings for a key in an association list. -/
def countKey {κ ν : Type} [DecidableEq κ] (k : κ) (m : List (κ × ν)) : Nat :=
  (m.filter (fun e => decide (e.1 = k))).length

/-- Number of occurrences of an element in a list. -/
def countElem {α : Type} [DecidableEq α] (k : α) (l : List α) : Nat :=
  (l.filter (fun x => decide (x = k))).length

/-- Membership-guarded insertion, the model of HashSet::insert on a
duplicate-free list. -/
def setInsert {α : Type} [DecidableEq α] (k : α) (l : List α) : List α :=
  if k ∈ l then l else k :: l

/-- Removal of every occurrence, the model of HashSet::remove. -/
def setRemove {α : Type} [DecidableEq α] (k : α) (l : List α) : List α :=
  l.filter (fun x => decide (x ≠ k))

/-- Connection protocol state of one client session (common::msg::ClientState;
the variants are exactly those matched in src/server/src/lib.rs). -/
inductive ClientState
  | Connected
  | Registered
  | Spectator
  | Character
  | Dead
  | Pending
deriving DecidableEq

/-- Typed protocol errors returned for disallowed transitions
(common::msg::RequestStateError as used in src/server/src/lib.rs). -/
inductive RequestStateError
  | WrongMessage
  | Already
  | Impossible
  | Denied
deriving DecidableEq

/-- Server-to-client messages relevant to session handling (the subset of
common::msg::ServerMsg pushed from handle_new_messages and
handle_new_connections). -/
inductive ServerReply
  | stateAnswer (s : ClientState)
  | stateError (e : RequestStateError)
  | initialSync
  | tooManyPlayers
  | pong
  | terrainChunkUpdate (key : Int × Int)
  | disconnect
deriving DecidableEq

/-- Abstracted ECS/world side effects of message handling; the claims under
verification concern session state, replies and control flow, so the entity
store mutations are recorded as opaque markers. -/
inductive Effect
  | setViewDistance (vd : Nat)
  | swapInventorySlots (a b : Nat)
  | dropInventorySlot (x : Nat)
  | pickUp (uid : Nat)
  | writeController
  | pushChat
  | writePhysics
  | pushModifiedBlock (pos : Int × Int × Int) (block : Nat)
  | requestChunk (key : Int × Int)
  | createCharacterEntity
  | queueOnlineBroadcast
  | writePlayerData
  | syncEntityPhysics
deriving DecidableEq

/-- Client-to-server messages (common::msg::ClientMsg; payloads are reduced to
the data the server-side match in src/server/src/lib.rs actually inspects,
with the player validity check player.is_valid() carried as a Bool). -/
inductive ClientMsg
  | RequestState (s : ClientState)
  | Register (playerValid : Bool) (aliasId pw : Nat)
  | SetViewDistance (vd : Nat)
  | SwapInventorySlots (a b : Nat)
  | DropInventorySlot (x : Nat)
  | PickUp (uid : Nat)
  | Character (name : Nat)
  | Controller
  | ChatMsg
  | PlayerPhysics
  | BreakBlock (pos : Int × Int × Int)
  | PlaceBlock (pos : Int × Int × Int) (block : Nat)
  | TerrainChunkRequest (key : Int × Int)
  | Ping
  | Pong
  | Disconnect
deriving DecidableEq

/-- One client session (src/server/src/client.rs Client; the last_ping
timestamp is omitted since no claim under verification concerns timeouts). -/
structure Client where
  client_state : ClientState
deriving DecidableEq

/-- Read-only context a single message handler consults: the credential store
(AuthProvider::query), whether this entity holds the CanBuild marker, and
whether a chunk key is present in the terrain store. -/
structure MsgEnv where
  query : Nat → Nat → Bool
  canBuild : Bool
  terrainHas : (Int × Int) → Bool

/-- Result of handling one inbound message for one session: the updated
session, the replies pushed to this client's postbox, the abstracted ECS
effects, the accumulated disconnect flag, and whether the message loop broke. -/
structure MsgOutcome where
  client : Client
  replies : List ServerReply
  effects : List Effect
  disconnect : Bool
  brk : Bool
deriving DecidableEq

/-- Modelled from the spec: Client::error_state (src/server/src/client.rs is
not under src/) sends the typed error back to the client and leaves the
session state unchanged ("all disallowed transitions resolve to a typed error
sent back to the client, and the session remains usable afterward"). -/
def error_state (c : Client) (e : RequestStateError) : MsgOutcome :=
  { client := c, replies := [ServerReply.stateError e], effects := [],
    disconnect := false, brk := false }

/-- Modelled from the spec: Client::allow_state moves the session to the
granted state and tells the client its request was successful. -/
def allow_state (c : Client) (s : ClientState) : MsgOutcome :=
  { client := { c with client_state := s },
    replies := [ServerReply.stateAnswer s], effects := [],
    disconnect := false, brk := false }

/-- Outcome of a message arm that neither replies nor changes the session. -/
def noAction (c : Client) : MsgOutcome :=
  { client := c, replies := [], effects := [], disconnect := false,
    brk := false }

/-- Embedding of Server::initialize_player (src/server/src/lib.rs:910-955):
stores the player metadata, syncs all entity physics to the fresh client
(abstracted as effect markers) and grants the Registered state. -/
def init_player (c : Client) : MsgOutcome :=
  { allow_state c ClientState.Registered with
    effects := [Effect.writePlayerData, Effect.syncEntityPhysics] }

/-- Embedding of Server::create_player_character
(src/server/src/lib.rs:200-235) as invoked from the Character message arm
(src/server/src/lib.rs:706-738): creates and attaches the character entity at
the spawn point, grants the Character state and queues the is-now-online
broadcast. -/
def create_character (c : Client) : MsgOutcome :=
  { allow_state c ClientState.Character with
    effects := [Effect.createCharacterEntity, Effect.queueOnlineBroadcast] }

/-- Embedding of the per-message match in Server::handle_new_messages
(src/server/src/lib.rs:580-815).  The inner match of the RequestState
Spectator arm scrutinises requested_state again, exactly as the source does
at src/server/src/lib.rs:597 (match requested_state, not
client.client_state). -/
def handleMsg (env : MsgEnv) (c : Client) : ClientMsg → MsgOutcome
  | ClientMsg.RequestState requested_state =>
    match requested_state with
    | ClientState.Connected =>
      -- Default state (src/server/src/lib.rs:583): sets the disconnect flag.
      { client := c, replies := [], effects := [], disconnect := true,
        brk := false }
    | ClientState.Registered =>
      match c.client_state with
      | ClientState.Connected => error_state c RequestStateError.WrongMessage
      | ClientState.Registered => error_state c RequestStateError.Already
      | ClientState.Spectator => allow_state c ClientState.Registered
      | ClientState.Character => allow_state c ClientState.Registered
      | ClientState.Dead => allow_state c ClientState.Registered
      | ClientState.Pending => noAction c
    | ClientState.Spectator =>
      match requested_state with
      | ClientState.Connected => error_state c RequestStateError.Impossible
      | ClientState.Spectator => error_state c RequestStateError.Already
      | ClientState.Registered => allow_state c ClientState.Spectator
      | ClientState.Character => allow_state c ClientState.Spectator
      | ClientState.Dead => allow_state c ClientState.Spectator
      | ClientState.Pending => noAction c
    | ClientState.Character => error_state c RequestStateError.WrongMessage
    | ClientState.Dead => error_state c RequestStateError.Impossible
    | ClientState.Pending => noAction c
  | ClientMsg.Register playerValid aliasId pw =>
    if playerValid then
      if env.query aliasId pw then
        match c.client_state with
        | ClientState.Connected => init_player c
        | ClientState.Registered => error_state c RequestStateError.Impossible
        | ClientState.Spectator => error_state c RequestStateError.Impossible
        | ClientState.Character => error_state c RequestStateError.Impossible
        | ClientState.Dead => error_state c RequestStateError.Impossible
        | ClientState.Pending => error_state c RequestStateError.Impossible
      else
        -- Credential check failed: error Denied, then break out of the
        -- message loop (src/server/src/lib.rs:619-622).
        { error_state c RequestStateError.Denied with brk := true }
    else
      error_state c RequestStateError.Impossible
  | ClientMsg.SetViewDistance vd =>
    match c.client_state with
    | ClientState.Character =>
      { noAction c with effects := [Effect.setViewDistance vd] }
    | _ => noAction c
  | ClientMsg.SwapInventorySlots a b =>
    { noAction c with effects := [Effect.swapInventorySlots a b] }
  | ClientMsg.DropInventorySlot x =>
    { noAction c with effects := [Effect.dropInventorySlot x] }
  | ClientMsg.PickUp uid =>
    { noAction c with effects := [Effect.pickUp uid] }
  | ClientMsg.Character _name =>
    match c.client_state with
    | ClientState.Connected => error_state c RequestStateError.Impossible
    | ClientState.Registered => create_character c
    | ClientState.Spectator => create_character c
    | ClientState.Dead => create_character c
    | ClientState.Character => error_state c RequestStateError.Already
    | ClientState.Pending => noAction c
  | ClientMsg.Controller =>
    match c.client_state with
    | ClientState.Connected => error_state c RequestStateError.Impossible
    | ClientState.Registered => error_state c RequestStateError.Impossible
    | ClientState.Spectator => error_state c RequestStateError.Impossible
    | ClientState.Dead => { noAction c with effects := [Effect.writeController] }
    | ClientState.Character => { noAction c with effects := [Effect.writeController] }
    | ClientState.Pending => noAction c
  | ClientMsg.ChatMsg =>
    match c.client_state with
    | ClientState.Connected => error_state c RequestStateError.Impossible
    | ClientState.Pending => noAction c
    | _ => { noAction c with effects := [Effect.pushChat] }
  | ClientMsg.PlayerPhysics =>
    match c.client_state with
    | ClientState.Character => { noAction c with effects := [Effect.writePhysics] }
    | _ => error_state c RequestStateError.Impossible
  | ClientMsg.BreakBlock pos =>
    if env.canBuild then
      { noAction c with effects := [Effect.pushModifiedBlock pos 0] }
    else noAction c
  | ClientMsg.PlaceBlock pos block =>
    if env.canBuild then
      { noAction c with effects := [Effect.pushModifiedBlock pos block] }
    else noAction c
  | ClientMsg.TerrainChunkRequest key =>
    match c.client_state with
    | ClientState.Connected => error_state c RequestStateError.Impossible
    | ClientState.Registered => error_state c RequestStateError.Impossible
    | ClientState.Dead => error_state c RequestStateError.Impossible
    | ClientState.Spectator =>
      if env.terrainHas key then
        { noAction c with replies := [ServerReply.terrainChunkUpdate key] }
      else { noAction c with effects := [Effect.requestChunk key] }
    | ClientState.Character =>
      if env.terrainHas key then
        { noAction c with replies := [ServerReply.terrainChunkUpdate key] }
      else { noAction c with effects := [Effect.requestChunk key] }
    | ClientState.Pending => noAction c
  | ClientMsg.Ping => { noAction c with replies := [ServerReply.pong] }
  | ClientMsg.Pong => noAction c
  | ClientMsg.Disconnect =>
    { client := c, replies := [], effects := [], disconnect := true,
      brk := false }

/-- Accumulated result of processing one session's drained message batch. -/
structure LoopOutcome where
  client : Client
  replies : List ServerReply
  effects : List Effect
  disconnect : Bool
deriving DecidableEq

/-- Embedding of the message loop in Server::handle_new_messages
(src/server/src/lib.rs:580-816): the messages drained from the postbox this
tick are processed in order; a break (issued only on a denied Register)
abandons the rest of the drained batch, which is never seen again; the
disconnect flag, once set by any message, persists to the end of the loop. -/
def processMsgs (env : MsgEnv) (c : Client) : List ClientMsg → LoopOutcome
  | [] => { client := c, replies := [], effects := [], disconnect := false }
  | m :: rest =>
    let o := handleMsg env c m
    if o.brk then
      { client := o.client, replies := o.replies, effects := o.effects,
        disconnect := o.disconnect }
    else
      let r := processMsgs env o.client rest
      { client := r.client, replies := o.replies ++ r.replies,
        effects := o.effects ++ r.effects,
        disconnect := o.disconnect || r.disconnect }

/-- Embedding of the per-client tail of Server::handle_new_messages
(src/server/src/lib.rs:827-839): after the drained batch is processed, a
session whose disconnect flag is set is sent ServerMsg::Disconnect and removed
from the registry (the closure returns true to remove_if); otherwise the
updated session is kept. -/
def runClient (env : MsgEnv) (c : Client) (msgs : List ClientMsg) :
    Option Client × List ServerReply :=
  let r := processMsgs env c msgs
  if r.disconnect then (none, r.replies ++ [ServerReply.disconnect])
  else (some r.client, r.replies)

/-- Result of accepting a batch of new connections. -/
structure ConnOutcome where
  clients : List (Nat × Client)
  notifications : List (Nat × ServerReply)
  connectedEvents : List Nat
deriving DecidableEq

/-- Embedding of Server::handle_new_connections
(src/server/src/lib.rs:527-555): every new postbox gets a fresh entity and a
session in Connected state; an at-capacity server replies with the
TooManyPlayers error and pushes no ClientConnected frontend event, below
capacity it replies with the InitialSync snapshot and records the event; in
both cases the session is then added to the registry by clients.add. -/
def handle_new_connections (maxPlayers : Nat) (clients : List (Nat × Client)) :
    List Nat → ConnOutcome
  | [] => { clients := clients, notifications := [], connectedEvents := [] }
  | entity :: rest =>
    let atCapacity : Bool := decide (maxPlayers ≤ clients.length)
    let note := if atCapacity then ServerReply.tooManyPlayers
                else ServerReply.initialSync
    let events : List Nat := if atCapacity then [] else [entity]
    let r := handle_new_connections maxPlayers
      (clients ++ [(entity, { client_state := ClientState.Connected })]) rest
    { clients := r.clients,
      notifications := (entity, note) :: r.notifications,
      connectedEvents := events ++ r.connectedEvents }

/-- Modelled from the spec: chunk_of(p), the chunk key of a world position
(TerrainMap::pos_key; common::terrain is not under src/).  Chunks have a fixed
horizontal size sz per axis and the key is the floor of position over size;
sz is kept as a parameter since neither the specification nor the sources
under src/ pin the numeric chunk size. -/
def posKey (sz : Nat) (p : Int × Int) : Int × Int :=
  (Int.fdiv p.1 (Int.ofNat sz), Int.fdiv p.2 (Int.ofNat sz))

/-- Adjusted squared chunk distance used by the interest test
(src/server/src/lib.rs:343-345 and 407-409): per axis the absolute chunk
coordinate difference with saturating subtraction of the 2-chunk slack
(checked_sub(2).unwrap_or(0) on u32 is Nat subtraction), then the squared
magnitude. -/
def adjusted_dist_sqr (a b : Int × Int) : Nat :=
  ((a.1 - b.1).natAbs - 2) ^ 2 + ((a.2 - b.2).natAbs - 2) ^ 2

/-- Embedding of chunk_in_vd (src/server/src/lib.rs:399-412): the player's
position is mapped to its chunk key and the adjusted squared chunk distance to
the queried chunk is compared against vd^2 (inclusive). -/
def chunk_in_vd (sz : Nat) (player_pos : Int × Int) (chunk_pos : Int × Int)
    (vd : Nat) : Bool :=
  decide (adjusted_dist_sqr (posKey sz player_pos) chunk_pos ≤ vd ^ 2)

/-- Embedding of the in_vd closure in Server::sync_clients
(src/server/src/lib.rs:1053-1073): per axis the absolute world-space
difference between the entity's position and the receiving client's entity
position is divided by the chunk size before the saturating 2-chunk slack,
and the squared magnitude is compared strictly (<) against vd^2.  Positions
are taken at integer coordinates, where the source's f32-to-u32 casts are
exact; the z axis, divided in the source by the chunk's full vertical extent,
contributes zero there and is omitted here. -/
def in_vd (sz : Nat) (entity_pos client_pos : Int × Int) (client_vd : Nat) :
    Bool :=
  decide ((((entity_pos.1 - client_pos.1).natAbs / sz - 2) ^ 2
      + ((entity_pos.2 - client_pos.2).natAbs / sz - 2) ^ 2)
    < client_vd ^ 2)

/-- Terrain chunk content, opaque once produced (common::terrain::TerrainChunk
is not under src/; no claim under verification inspects voxel data). -/
structure TerrainChunk where
  content : Nat
deriving DecidableEq

/-- One entity spawn hint carried by a generated chunk's supplement
(world::ChunkSupplement npcs; only presence and the boss flag are inspected
by the server). -/
structure NpcHint where
  id : Nat
  boss : Bool
deriving DecidableEq

/-- One completed generation result as sent over the chunk_tx/chunk_rx
channel (src/server/src/lib.rs:72-73): the key, the generated chunk and its
spawn supplement. -/
structure GenResult where
  key : Int × Int
  chunk : TerrainChunk
  supplement : List NpcHint
deriving DecidableEq

/-- One in-world player as seen by the generation-result broadcast
(src/server/src/lib.rs:332-340): entity id, world position, optional view
distance. -/
structure PlayerView where
  id : Nat
  pos : Int × Int
  view_distance : Option Nat
deriving DecidableEq

/-- The server state touched by the generation pipeline: the terrain store
with its change tracking (TerrainMap/TerrainChanges), the pending set, the
buffered completion channel, the jobs dispatched to the worker pool, the
entities spawned from supplements, the TerrainChunkUpdate notifications
pushed so far and the connected players. -/
structure GenState where
  terrain : List ((Int × Int) × TerrainChunk)
  new_chunks : List (Int × Int)
  modified_chunks : List (Int × Int)
  pending_chunks : List (Int × Int)
  chunk_queue : List GenResult
  jobs : List (Int × Int)
  npcs : List NpcHint
  sent_chunk_updates : List (Nat × (Int × Int))
  players : List PlayerView
deriving DecidableEq

/-- Embedding of State::insert_chunk (src/common/src/state.rs:257-274):
overwrite the chunk stored under the key; a key already present is recorded
in modified_chunks, a fresh key in new_chunks. -/
def insert_chunk (s : GenState) (key : Int × Int) (chunk : TerrainChunk) :
    GenState :=
  if (assocLookup key s.terrain).isSome then
    { s with terrain := assocInsert key chunk s.terrain,
             modified_chunks := setInsert key s.modified_chunks }
  else
    { s with terrain := assocInsert key chunk s.terrain,
             new_chunks := setInsert key s.new_chunks }

/-- Embedding of Server::generate_chunk (src/server/src/lib.rs:1176-1184): a
key freshly inserted into pending_chunks dispatches exactly one worker job
(thread_pool.execute sending to chunk_tx); a key already pending dispatches
nothing. -/
def generate_chunk (s : GenState) (key : Int × Int) : GenState :=
  if key ∈ s.pending_chunks then s
  else { s with pending_chunks := key :: s.pending_chunks,
                jobs := s.jobs ++ [key] }

/-- Embedding of tick phase 5 (src/server/src/lib.rs:330-397): try_recv takes
at most one completed generation result per tick; the result's chunk is
announced to every player whose adjusted chunk distance is within view
distance, inserted into the terrain store, its key removed from
pending_chunks, and the supplement's entity hints spawned.  No membership
check against pending_chunks guards any of this. -/
def consume_gen_result (sz : Nat) (s : GenState) : GenState :=
  match s.chunk_queue with
  | [] => s
  | r :: rest =>
    let sent := s.players.filterMap (fun p =>
      match p.view_distance with
      | some vd =>
        if adjusted_dist_sqr (posKey sz p.pos) r.key ≤ vd ^ 2 then
          some (p.id, r.key)
        else none
      | none => none)
    let s1 := insert_chunk
      { s with chunk_queue := rest,
               sent_chunk_updates := s.sent_chunk_updates ++ sent }
      r.key r.chunk
    { s1 with pending_chunks := setRemove r.key s1.pending_chunks,
              npcs := s1.npcs ++ r.supplement }

/-- A single block value (common::terrain::Block, opaque here). -/
structure Block where
  id : Nat
deriving DecidableEq

/-- Embedding of BlockChange (src/common/src/state.rs:46-59): the per-tick
block-edit buffer, a HashMap from block position to new block value. -/
structure BlockChange where
  blocks : List ((Int × Int × Int) × Block)
deriving DecidableEq

/-- Embedding of BlockChange::set (src/common/src/state.rs:52-54): HashMap
insert, replacing any existing binding at the position. -/
def BlockChange.set (bc : BlockChange) (pos : Int × Int × Int) (block : Block) :
    BlockChange :=
  { blocks := assocInsert pos block bc.blocks }

/-- The state touched by the terrain-changes tail of State::tick: the
block-edit buffer, the modified_blocks map of TerrainChanges, and the voxel
writes applied to the terrain (abstracted as a log). -/
structure TickBlocks where
  block_change : BlockChange
  modified_blocks : List ((Int × Int × Int) × Block)
  terrain_writes : List ((Int × Int × Int) × Block)
deriving DecidableEq

/-- Embedding of the terrain-changes tail of State::tick
(src/common/src/state.rs:310-323): every buffered block edit is written to
the terrain, then the buffer is moved wholesale into
TerrainChanges::modified_blocks (mem::replace) leaving an empty buffer. -/
def tick_apply_terrain (s : TickBlocks) : TickBlocks :=
  { block_change := { blocks := [] },
    modified_blocks := s.block_change.blocks,
    terrain_writes := s.terrain_writes ++ s.block_change.blocks }

/-- Auth/build/terrain context where every credential query succeeds, no
build capability is held, and the terrain store is empty. -/
def envPlain : MsgEnv :=
  { query := fun _ _ => true, canBuild := false, terrainHas := fun _ => false }

/-- Auth/build/terrain context whose credential check always fails. -/
def envDenyAll : MsgEnv :=
  { query := fun _ _ => false, canBuild := false, terrainHas := fun _ => false }

/-- A sample generated chunk used in concrete runs. -/
def chunkA : TerrainChunk := { content := 10 }

/-- A second sample generated chunk used in concrete runs. -/
def chunkB : TerrainChunk := { content := 20 }

/-- A sample chunk completing for an already-evicted key. -/
def chunkC : TerrainChunk := { content := 0 }

/-- Concrete server state whose completion queue holds two finished results
while both keys are still pending and one player is in view of the first. -/
def genStateTwoQueued : GenState :=
  { terrain := [], new_chunks := [], modified_chunks := [],
    pending_chunks := [(3, 4), (8, 8)],
    chunk_queue :=
      [ { key := (3, 4), chunk := chunkA,
          supplement := [{ id := 1, boss := false }] },
        { key := (8, 8), chunk := chunkB, supplement := [] } ],
    jobs := [], npcs := [], sent_chunk_updates := [],
    players := [{ id := 1, pos := (100, 140), view_distance := some 3 }] }

/-- Concrete server state where a generation result for key (0,0) completed
after the key was evicted from the pending set, with one in-view player. -/
def genStaleState : GenState :=
  { terrain := [], new_chunks := [], modified_chunks := [],
    pending_chunks := [],
    chunk_queue := [{ key := (0, 0), chunk := chunkC, supplement := [] }],
    jobs := [], npcs := [], sent_chunk_updates := [],
    players := [{ id := 1, pos := (0, 0), view_distance := some 2 }] }

/-- C1: the claim says RequestState(Spectator) received in Registered,
Character or Dead transitions the session to Spectator, in Spectator yields
the typed error Already, and in Connected yields the typed error Impossible.
The code instead replies Already and leaves the session state untouched in
every state: the inner match at src/server/src/lib.rs:597 scrutinises
requested_state rather than client.client_state, so its non-Already arms are
dead code. -/
theorem requestState_spectator_always_already (env : MsgEnv) (c : Client) :
    handleMsg env c (ClientMsg.RequestState ClientState.Spectator) =
      { client := c,
        replies := [ServerReply.stateError RequestStateError.Already],
        effects := [], disconnect := false, brk := false } := rfl

/-- C2 counterexample: a session in Connected state that sends
RequestState(Connected) is not left connected and usable as the claim states;
it is removed from the registry and sent Disconnect. -/
theorem requestState_connected_cex :
    (runClient envPlain { client_state := ClientState.Connected }
        [ClientMsg.RequestState ClientState.Connected]).1 = none ∧
    (runClient envPlain { client_state := ClientState.Connected }
        [ClientMsg.RequestState ClientState.Connected]).2
      = [ServerReply.disconnect] := by
  constructor <;> rfl

/-- C2 amended: in every connection state, RequestState(Connected) produces
no reply and leaves the state field untouched, but sets the disconnect flag,
so at the end of that tick's message processing the session is sent
Disconnect and torn down rather than remaining connected and usable. -/
theorem requestState_connected_tears_down (env : MsgEnv) (c : Client)
    (rest : List ClientMsg) :
    handleMsg env c (ClientMsg.RequestState ClientState.Connected) =
      { client := c, replies := [], effects := [], disconnect := true,
        brk := false } ∧
    (runClient env c (ClientMsg.RequestState ClientState.Connected :: rest)).1
      = none := by
  refine ⟨rfl, ?_⟩
  simp [runClient, processMsgs, handleMsg]

/-- C3 counterexample: a server with max_players = 0 and no clients accepts
one connection; it is sent the TooManyPlayers error and produces no
ClientConnected event, yet contrary to the claim the session is added to the
set of live client sessions. -/
theorem capacity_connection_cex :
    (handle_new_connections 0 [] [7]).clients
      = [(7, { client_state := ClientState.Connected })] ∧
    (handle_new_connections 0 [] [7]).notifications
      = [(7, ServerReply.tooManyPlayers)] ∧
    (handle_new_connections 0 [] [7]).connectedEvents = [] := by
  refine ⟨rfl, rfl, rfl⟩

/-- C3 amended: when a new connection arrives while the server already has at
least max_players clients, that connection receives the capacity-exceeded
error instead of the initial full-state snapshot and no ClientConnected event
is produced, but the Connected-state session is still added to the set of
live client sessions. -/
theorem capacity_connection_still_added (maxPlayers : Nat)
    (clients : List (Nat × Client)) (e : Nat)
    (h : maxPlayers ≤ clients.length) :
    (handle_new_connections maxPlayers clients [e]).notifications
      = [(e, ServerReply.tooManyPlayers)] ∧
    (handle_new_connections maxPlayers clients [e]).connectedEvents = [] ∧
    (handle_new_connections maxPlayers clients [e]).clients
      = clients ++ [(e, { client_state := ClientState.Connected })] := by
  have hd : decide (maxPlayers ≤ clients.length) = true := decide_eq_true h
  simp [handle_new_connections, hd]

/-- Witness for C3: the amended theorem applied to the concrete at-capacity
server with max_players = 0 and a connection with entity id 9. -/
theorem capacity_connection_still_added_witness :
    (0 : Nat) ≤ ([] : List (Nat × Client)).length ∧
    (handle_new_connections 0 [] [9]).connectedEvents = [] :=
  ⟨Nat.zero_le _, (capacity_connection_still_added 0 [] 9 (Nat.zero_le _)).2.1⟩

/-- C10: a Register message carrying valid player data whose credential check
fails makes the server reply with the typed error Denied and break out of the
message loop: the session state is unchanged and every remaining message of
that tick's drained batch is discarded, never to be processed (the batch was
drained from the postbox by new_messages). -/
theorem register_denied_discards_rest (env : MsgEnv) (c : Client)
    (aliasId pw : Nat) (rest : List ClientMsg)
    (h : env.query aliasId pw = false) :
    processMsgs env c (ClientMsg.Register true aliasId pw :: rest) =
      { client := c,
        replies := [ServerReply.stateError RequestStateError.Denied],
        effects := [], disconnect := false } := by
  simp [processMsgs, handleMsg, h, error_state]

/-- Witness for C10: a failing credential store and two further queued
messages (a Ping and even a Disconnect), all discarded after the Denied
reply. -/
theorem register_denied_discards_rest_witness :
    envDenyAll.query 4 7 = false ∧
    processMsgs envDenyAll { client_state := ClientState.Connected }
        [ClientMsg.Register true 4 7, ClientMsg.Ping, ClientMsg.Disconnect] =
      { client := { client_state := ClientState.Connected },
        replies := [ServerReply.stateError RequestStateError.Denied],
        effects := [], disconnect := false } :=
  ⟨rfl, register_denied_discards_rest envDenyAll
      { client_state := ClientState.Connected } 4 7
      [ClientMsg.Ping, ClientMsg.Disconnect] rfl⟩

/-- Looking up a key just inserted into an association map yields the
inserted value. -/
theorem assocLookup_assocInsert_self {κ ν : Type} [DecidableEq κ] (k : κ)
    (v : ν) (m : List (κ × ν)) : assocLookup k (assocInsert k v m) = some v := by
  simp [assocLookup, assocInsert]

/-- Removing an element that is not present leaves the list unchanged. -/
theorem setRemove_eq_of_not_mem {α : Type} [DecidableEq α] (k : α)
    (l : List α) (h : k ∉ l) : setRemove k l = l :=
  List.filter_eq_self.mpr (fun _ ha => decide_eq_true (fun hak => h (hak ▸ ha)))

/-- An element is never a member of the list it was removed from. -/
theorem not_mem_setRemove_self {α : Type} [DecidableEq α] (k : α)
    (l : List α) : k ∉ setRemove k l := by
  simp [setRemove, List.mem_filter]

/-- Occurrence counting distributes over append. -/
theorem countElem_append {α : Type} [DecidableEq α] (k : α) (l1 l2 : List α) :
    countElem k (l1 ++ l2) = countElem k l1 + countElem k l2 := by
  simp [countElem, List.filter_append]

/-- A singleton of the counted element counts one. -/
theorem countElem_self_singleton {α : Type} [DecidableEq α] (k : α) :
    countElem k [k] = 1 := by
  simp [countElem]

/-- Entries surviving the key-erasing filter never match the erased key. -/
theorem filter_key_of_filter_ne {κ ν : Type} [DecidableEq κ] (k : κ)
    (m : List (κ × ν)) :
    (m.filter (fun e => decide (e.1 ≠ k))).filter
        (fun e => decide (e.1 = k)) = [] := by
  induction m with
  | nil => rfl
  | cons x xs ih =>
    by_cases hx : x.1 = k
    · simp [List.filter_cons, hx, ih]
    · simp [List.filter_cons, hx, ih]

/-- An association map holds exactly one binding for a key just inserted. -/
theorem countKey_assocInsert_self {κ ν : Type} [DecidableEq κ] (k : κ)
    (v : ν) (m : List (κ × ν)) : countKey k (assocInsert k v m) = 1 := by
  simp [countKey, assocInsert, List.filter_cons, filter_key_of_filter_ne]

/-- Iterating generate_chunk on a key that is already pending is the
identity. -/
theorem generate_chunk_iterate_fixed (k : Int × Int) :
    ∀ (m : Nat) (t : GenState), k ∈ t.pending_chunks →
      (fun t => generate_chunk t k)^[m] t = t := by
  intro m
  induction m with
  | zero => intro t _; rfl
  | succ m ih =>
    intro t ht
    rw [Function.iterate_succ_apply]
    rw [show generate_chunk t k = t from by simp [generate_chunk, ht]]
    exact ih t ht

/-- Saturating Nat subtraction of two, cast to Int, is the max-with-zero of
the Int subtraction: the bridge between the source's
checked_sub(2).unwrap_or(0) and the specification's max(0, n - 2). -/
theorem cast_natSub_two (n : Nat) :
    ((n - 2 : Nat) : Int) = max 0 ((n : Int) - 2) := by
  omega

/-- C4 counterexample: a completed result whose key (0,0) is absent from the
pending set (the chunk was evicted before generation finished) is not
discarded: contrary to the claim, its chunk is inserted into the terrain
store and a TerrainChunkUpdate for it is sent to the in-view client. -/
theorem stale_result_not_discarded_cex :
    genStaleState.pending_chunks = [] ∧
    assocLookup ((0, 0) : Int × Int)
        (consume_gen_result 32 genStaleState).terrain = some chunkC ∧
    (consume_gen_result 32 genStaleState).sent_chunk_updates
      = [(1, (0, 0))] := by
  refine ⟨rfl, ?_, ?_⟩ <;> decide

/-- C4 amended: the tick orchestrator consumes the head result without any
pending-set check: its chunk is inserted into the terrain store and announced
to in-view clients even when its key is no longer in the pending set, in
which case the pending-set removal is simply a no-op. -/
theorem consume_ignores_pending (sz : Nat) (s : GenState) (r : GenResult)
    (rest : List GenResult) (hq : s.chunk_queue = r :: rest)
    (hp : r.key ∉ s.pending_chunks) :
    assocLookup r.key (consume_gen_result sz s).terrain = some r.chunk ∧
    (consume_gen_result sz s).pending_chunks = s.pending_chunks ∧
    (consume_gen_result sz s).chunk_queue = rest := by
  by_cases hins : (assocLookup r.key s.terrain).isSome <;>
    simp [consume_gen_result, hq, insert_chunk, hins,
          assocLookup_assocInsert_self, setRemove_eq_of_not_mem r.key _ hp]

/-- Witness for C4: the amended theorem applied to the concrete stale-result
state. -/
theorem consume_ignores_pending_witness :
    genStaleState.chunk_queue
      = ({ key := (0, 0), chunk := chunkC, supplement := [] } : GenResult)
        :: [] ∧
    ((0, 0) : Int × Int) ∉ genStaleState.pending_chunks ∧
    (consume_gen_result 32 genStaleState).pending_chunks
      = genStaleState.pending_chunks :=
  ⟨rfl, by simp [genStaleState],
    (consume_ignores_pending 32 genStaleState _ [] rfl
      (by simp [genStaleState])).2.1⟩

/-- C5: requesting a key already in the pending set is a no-op (no second job
is dispatched); generate_chunk never removes a pending key and the tick's
consume step removes exactly the consumed result's key, so a key stays
pending from scheduling until its result is consumed; and requesting the same
ungenerated key any positive number of times dispatches exactly one
generation job. -/
theorem generate_chunk_dedupe :
    (∀ s k, k ∈ s.pending_chunks → generate_chunk s k = s) ∧
    (∀ s k k', k' ∈ s.pending_chunks →
      k' ∈ (generate_chunk s k).pending_chunks) ∧
    (∀ sz s r rest, s.chunk_queue = r :: rest →
      (consume_gen_result sz s).pending_chunks
        = setRemove r.key s.pending_chunks) ∧
    (∀ s k n, k ∉ s.pending_chunks → 1 ≤ n →
      countElem k ((fun t => generate_chunk t k)^[n] s).jobs
          = countElem k s.jobs + 1 ∧
      k ∈ ((fun t => generate_chunk t k)^[n] s).pending_chunks) := by
  refine ⟨?_, ?_, ?_, ?_⟩
  · intro s k h
    simp [generate_chunk, h]
  · intro s k k' h
    by_cases hk : k ∈ s.pending_chunks
    · simpa [generate_chunk, hk] using h
    · simp [generate_chunk, hk]
      exact Or.inr h
  · intro sz s r rest hq
    by_cases hins : (assocLookup r.key s.terrain).isSome <;>
      simp [consume_gen_result, hq, insert_chunk, hins]
  · intro s k n hk hn
    obtain ⟨m, rfl⟩ : ∃ m, n = m + 1 := ⟨n - 1, by omega⟩
    rw [Function.iterate_succ_apply]
    have hstep : generate_chunk s k
        = { s with pending_chunks := k :: s.pending_chunks,
                   jobs := s.jobs ++ [k] } := by
      simp [generate_chunk, hk]
    rw [hstep]
    rw [generate_chunk_iterate_fixed k m _ (List.mem_cons_self k _)]
    exact ⟨by simp [countElem_append, countElem_self_singleton],
      List.mem_cons_self k _⟩

/-- Witness for C5: three requests for the ungenerated key (1,2) from the
stale-result state dispatch exactly one job. -/
theorem generate_chunk_dedupe_witness :
    ((1, 2) : Int × Int) ∉ genStaleState.pending_chunks ∧ 1 ≤ 3 ∧
    countElem ((1, 2) : Int × Int)
        ((fun t => generate_chunk t (1, 2))^[3] genStaleState).jobs
      = countElem ((1, 2) : Int × Int) genStaleState.jobs + 1 :=
  ⟨by simp [genStaleState], by omega,
    (generate_chunk_dedupe.2.2.2 genStaleState (1, 2) 3
      (by simp [genStaleState]) (by omega)).1⟩

/-- C6: in every tick the orchestrator consumes at most one completed
generation result however many are queued: exactly the head of the completion
queue is taken, its chunk is inserted into the terrain store under its key,
the key is no longer pending afterwards, and the supplement's entity hints
are spawned. -/
theorem consume_at_most_one (sz : Nat) (s : GenState) (r : GenResult)
    (rest : List GenResult) (hq : s.chunk_queue = r :: rest) :
    (consume_gen_result sz s).chunk_queue = rest ∧
    assocLookup r.key (consume_gen_result sz s).terrain = some r.chunk ∧
    r.key ∉ (consume_gen_result sz s).pending_chunks ∧
    (consume_gen_result sz s).npcs = s.npcs ++ r.supplement := by
  by_cases hins : (assocLookup r.key s.terrain).isSome <;>
    simp [consume_gen_result, hq, insert_chunk, hins,
          assocLookup_assocInsert_self, not_mem_setRemove_self]

/-- Witness for C6: with two results queued, exactly the first is consumed
and the second is left on the channel. -/
theorem consume_at_most_one_witness :
    genStateTwoQueued.chunk_queue
      = ({ key := (3, 4), chunk := chunkA,
           supplement := [{ id := 1, boss := false }] } : GenResult)
        :: [{ key := (8, 8), chunk := chunkB, supplement := [] }] ∧
    (consume_gen_result 32 genStateTwoQueued).chunk_queue
      = [{ key := (8, 8), chunk := chunkB, supplement := [] }] :=
  ⟨rfl, (consume_at_most_one 32 genStateTwoQueued _ _ rfl).1⟩

/-- C7: for every chunk size, client position p, chunk key k and view
distance vd, the chunk is judged in view exactly when
max(0,|chunk_of(p)-k|.x-2)^2 + max(0,|chunk_of(p)-k|.y-2)^2 <= vd^2; and
concretely (chunk size 32) for p = (320,320), which lies in chunk (10,10),
with vd = 2 the chunk (13,10) is in view and the chunk (20,10) is not. -/
theorem chunk_in_vd_spec :
    (∀ sz p k vd, chunk_in_vd sz p k vd = true ↔
      (max 0 ((((posKey sz p).1 - k.1).natAbs : Int) - 2)) ^ 2
        + (max 0 ((((posKey sz p).2 - k.2).natAbs : Int) - 2)) ^ 2
        ≤ (vd : Int) ^ 2) ∧
    posKey 32 (320, 320) = (10, 10) ∧
    chunk_in_vd 32 (320, 320) (13, 10) 2 = true ∧
    chunk_in_vd 32 (320, 320) (20, 10) 2 = false := by
  refine ⟨?_, by decide, by decide, by decide⟩
  intro sz p k vd
  rw [chunk_in_vd, decide_eq_true_eq, adjusted_dist_sqr]
  rw [← cast_natSub_two, ← cast_natSub_two]
  constructor
  · intro h; exact_mod_cast h
  · intro h; exact_mod_cast h

/-- C8 counterexample: for an entity at (96,0), a client at (0,0) and vd = 1
(chunk size 32) the chunk view-distance test holds for the entity's chunk but
the entity in-view test does not: the two tests disagree, contrary to the
claim. -/
theorem in_vd_disagrees_cex :
    in_vd 32 (96, 0) (0, 0) 1 = false ∧
    chunk_in_vd 32 (0, 0) (posKey 32 (96, 0)) 1 = true := by
  exact ⟨by decide, by decide⟩

/-- C8 amended: the in-view test used when broadcasting entity updates is
evaluated against the receiving client's own entity position but is not the
chunk view-distance test: per axis it computes
max(0, floor(|entity - client| / chunk_size) - 2) on the world-space
difference and compares the squared sum strictly (< vd^2), and it disagrees
with the chunk test, for example at entity (96,0), client (0,0), vd = 1 with
chunk size 32. -/
theorem in_vd_characterization :
    (∀ sz pe pc vd, in_vd sz pe pc vd = true ↔
      (max 0 ((((pe.1 - pc.1).natAbs / sz : Nat) : Int) - 2)) ^ 2
        + (max 0 ((((pe.2 - pc.2).natAbs / sz : Nat) : Int) - 2)) ^ 2
        < (vd : Int) ^ 2) ∧
    ¬ (∀ pe pc vd, in_vd 32 pe pc vd
        = chunk_in_vd 32 pc (posKey 32 pe) vd) := by
  constructor
  · intro sz pe pc vd
    rw [in_vd, decide_eq_true_eq]
    rw [← cast_natSub_two, ← cast_natSub_two]
    constructor
    · intro h; exact_mod_cast h
    · intro h; exact_mod_cast h
  · intro h
    have h1 := h (96, 0) (0, 0) 1
    revert h1
    decide

/-- C9: if two block edits to the same position are accepted within one tick,
the tick's modified_blocks map contains exactly one entry for that position,
holding the second (later) value. -/
theorem block_edit_coalescing (s : TickBlocks) (p : Int × Int × Int)
    (b1 b2 : Block) :
    countKey p (tick_apply_terrain
        { s with block_change :=
            (s.block_change.set p b1).set p b2 }).modified_blocks = 1 ∧
    assocLookup p (tick_apply_terrain
        { s with block_change :=
            (s.block_change.set p b1).set p b2 }).modified_blocks
      = some b2 := by
  constructor
  · simpa [tick_apply_terrain, BlockChange.set] using
      countKey_assocInsert_self p b2 (assocInsert p b1 s.block_change.blocks)
  · simpa [tick_apply_terrain, BlockChange.set] using
      assocLookup_assocInsert_self p b2 (assocInsert p b1 s.block_change.blocks)

end Veloren
